import Mathlib

/-!
Verification of `motulator/control/sm_flux_vector.py` (flux-vector control
for synchronous motor drives): a shallow embedding of the control parameters,
the stator flux-and-torque regulator (`FluxTorqueCtrl`), the sensored flux
observer (`Observer`) and the control-loop orchestrator
(`SynchronousMotorFluxVectorCtrl`), together with theorems checking the
specification's claims against the embedded code.

Floating-point values are modelled as real numbers, complex phasors as `ℂ`.
Python exceptions that can occur during construction (a `TypeError` from
arithmetic on `None`, a `ZeroDivisionError` from float division by zero) are
modelled by returning `none` from the constructor.
-/

open ComplexConjugate

noncomputable section

/-- Control parameters, from the dataclass
`SynchronousMotorFluxVectorCtrlPars`.  The speed-reference callable is a
function of time; `psi_s_min` and `psi_s_max` default to Python `None` and are
modelled as `Option ℝ`. -/
structure CtrlPars where
  w_m_ref : ℝ → ℝ
  sensorless : Bool
  T_s : ℝ
  psi_s_min : Option ℝ
  psi_s_max : Option ℝ
  k_u : ℝ
  alpha_psi : ℝ
  alpha_tau : ℝ
  alpha_s : ℝ
  tau_M_max : ℝ
  i_s_max : ℝ
  R_s : ℝ
  L_d : ℝ
  L_q : ℝ
  psi_f : ℝ
  p : ℕ
  J : ℝ
  w_o : ℝ
  zeta_inf : ℝ
  g : ℝ

/-- Stator flux and torque controller state, from `FluxTorqueCtrl.__init__`:
the stored fields are `T_s`, `R_s`, `p`, `alpha_psi` and the gain `k_tau`. -/
structure FluxTorqueCtrl where
  T_s : ℝ
  R_s : ℝ
  p : ℕ
  alpha_psi : ℝ
  k_tau : ℝ

/-- The nominal flux operating point chosen in `FluxTorqueCtrl.__init__`,
line 196: `psi_s0 = pars.psi_f if pars.psi_f > 0 else pars.psi_s_min`.
The result is `none` exactly when `psi_f <= 0` and `psi_s_min` is `None`. -/
def psiS0? (pars : CtrlPars) : Option ℝ :=
  if pars.psi_f > 0 then some pars.psi_f else pars.psi_s_min

/-- The torque-vs-angle sensitivity `c_delta0` computed in
`FluxTorqueCtrl.__init__`, lines 195-200, at the operating point `ψ0`,
with `G = (L_d - L_q)/(L_d*L_q)` inlined:
for `psi_f > 0` it is `1.5*p*(psi_f*psi_s0/L_d - G*psi_s0**2)`,
otherwise `1.5*p*G*psi_s0**2`. -/
def cDelta0 (pars : CtrlPars) (ψ0 : ℝ) : ℝ :=
  if pars.psi_f > 0 then
    1.5 * (pars.p : ℝ) *
      (pars.psi_f * ψ0 / pars.L_d -
        (pars.L_d - pars.L_q) / (pars.L_d * pars.L_q) * ψ0 ^ 2)
  else
    1.5 * (pars.p : ℝ) * ((pars.L_d - pars.L_q) / (pars.L_d * pars.L_q)) * ψ0 ^ 2

/-- `FluxTorqueCtrl.__init__`, lines 189-201.  Construction fails (`none`)
exactly where the Python constructor raises:
* `L_d*L_q = 0` — `ZeroDivisionError` computing `G` on line 195;
* `psi_f <= 0` with `psi_s_min` equal to `None` — `TypeError` squaring
  `None` on line 200;
* `c_delta0 = 0` — `ZeroDivisionError` computing `k_tau` on line 201. -/
def FluxTorqueCtrl.init (pars : CtrlPars) : Option FluxTorqueCtrl :=
  if pars.L_d * pars.L_q = 0 then none
  else
    (psiS0? pars).bind fun ψ0 =>
      if cDelta0 pars ψ0 = 0 then none
      else
        some ⟨pars.T_s, pars.R_s, pars.p, pars.alpha_psi,
          pars.alpha_tau / cDelta0 pars ψ0⟩

/-- The torque estimate computed on line 227:
`tau_M = 1.5*self.p*np.imag(i_s*np.conj(psi_s))`. -/
def torqueEstimate (p : ℕ) (i_s ψ : ℂ) : ℝ :=
  1.5 * (p : ℝ) * (i_s * conj ψ).im

/-- `FluxTorqueCtrl.__call__`, lines 203-239, as a state-passing function:
the first component is the returned unlimited voltage reference `u_s_ref`,
the second is the (unchanged) controller — the method assigns to no field of
`self`. -/
def FluxTorqueCtrl.call (c : FluxTorqueCtrl) (psi_s_ref tau_M_ref : ℝ)
    (psi_s i_s : ℂ) (w_m : ℝ) : ℂ × FluxTorqueCtrl :=
  let tau_M := torqueEstimate c.p i_s psi_s
  let w_s := w_m + c.k_tau * (tau_M_ref - tau_M)
  let e_psi := psi_s_ref - Complex.abs psi_s
  let delta := Complex.arg psi_s
  (((c.R_s : ℂ) * i_s + Complex.I * (w_s : ℂ) * psi_s +
      ((c.alpha_psi * e_psi : ℝ) : ℂ) * Complex.exp (Complex.I * (delta : ℂ))),
    c)

/-- Sensored observer state, from `Observer.__init__`, lines 255-263.  The
initial flux estimate is the scalar `pars.psi_f`, coerced to `ℂ`. -/
structure Observer where
  T_s : ℝ
  R_s : ℝ
  L_d : ℝ
  L_q : ℝ
  psi_f : ℝ
  g : ℝ
  psi_s : ℂ

/-- `Observer.__init__`: stores the parameter estimates and sets the initial
state `psi_s = pars.psi_f`. -/
def Observer.init (pars : CtrlPars) : Observer :=
  ⟨pars.T_s, pars.R_s, pars.L_d, pars.L_q, pars.psi_f, pars.g,
    (pars.psi_f : ℂ)⟩

/-- `Observer.update`, lines 265-284:
`e = L_d*i_s.real + 1j*L_q*i_s.imag + psi_f - psi_s` and
`psi_s += T_s*(u_s - R_s*i_s - 1j*w_m*psi_s + g*e)`. -/
def Observer.update (o : Observer) (u_s i_s : ℂ) (w_m : ℝ) : Observer :=
  let e : ℂ := (o.L_d * i_s.re : ℝ) + Complex.I * ((o.L_q * i_s.im : ℝ) : ℂ) +
    (o.psi_f : ℂ) - o.psi_s
  { o with
    psi_s := o.psi_s + (o.T_s : ℂ) *
      (u_s - (o.R_s : ℂ) * i_s - Complex.I * (w_m : ℂ) * o.psi_s +
        (o.g : ℂ) * e) }

/-- `np.mod(x, y)` for real arguments: `x - y*⌊x/y⌋` (the result takes the
sign of the divisor, as in numpy/Python). -/
def npMod (x y : ℝ) : ℝ := x - y * (⌊x / y⌋ : ℤ)

/-- The electrical rotor angle used in the sensored branch of
`SynchronousMotorFluxVectorCtrl.__call__`, lines 136-137:
`theta_m = np.mod(p*meas_position() + np.pi, 2*np.pi) - np.pi`. -/
def sensoredTheta (p : ℕ) (pos : ℝ) : ℝ :=
  npMod ((p : ℝ) * pos + Real.pi) (2 * Real.pi) - Real.pi

/-- Modelled from the spec: the external collaborators of the control loop
(spec section 6), whose code is outside this module — the PWM/modulation
stage (duty-ratio synthesis, realized-voltage bookkeeping), the outer speed
controller, the flux/torque reference-shaping stage and the three-phase
coordinate-transform primitive `abc2complex`.  Each is abstracted by its
interface: state types, a construction-time initial state, per-tick output
maps and state-update maps.  The orchestrator theorems below hold for every
instantiation of this record. -/
structure Externals where
  PwmSt : Type
  SpeedSt : Type
  pwmInit : PwmSt
  pwmRealized : PwmSt → ℂ
  pwmOutput : PwmSt → ℂ → ℝ → ℝ → ℝ → (ℝ × ℝ × ℝ) × ℂ
  pwmUpdate : PwmSt → ℂ → PwmSt
  speedInit : SpeedSt
  speedOutput : SpeedSt → ℝ → ℝ → ℝ
  speedUpdate : SpeedSt → ℝ → SpeedSt
  ftRef : ℝ → ℝ → ℝ → ℝ × ℝ
  abc2complex : ℝ × ℝ × ℝ → ℂ

/-- Per-tick feedback sample read from the plant model `mdl`: the measured
phase currents, the DC-bus voltage, and (sensored mode) the measured
mechanical rotor speed and position. -/
structure Feedback where
  i_abc : ℝ × ℝ × ℝ
  u_dc : ℝ
  w_M : ℝ
  theta_M : ℝ

/-- Mutable state of `SynchronousMotorFluxVectorCtrl` in the sensored mode:
the tick clock `t` (from the `Ctrl` base class), the outer speed-loop state,
the PWM state and the sensored observer.  The stateless `FluxTorqueCtrl` is
passed separately. -/
structure CtrlState (ext : Externals) where
  t : ℝ
  speedSt : ext.SpeedSt
  pwmSt : ext.PwmSt
  observer : Observer

/-- The construction-time data of `SynchronousMotorFluxVectorCtrl.__init__`,
lines 88-101, that lives in this module: the sampling period, pole-pair
count, mode flag, the flux-and-torque controller and the sensored observer.
The externally defined subsystems are carried by `Externals`. -/
structure SMCtrl where
  T_s : ℝ
  p : ℕ
  sensorless : Bool
  flux_torque_ctrl : FluxTorqueCtrl
  observer : Observer

/-- `SynchronousMotorFluxVectorCtrl.__init__`: the only fallible step is the
construction of `FluxTorqueCtrl` (line 94); every other line merely stores a
parameter or builds a subsystem state. -/
def SMCtrl.init (pars : CtrlPars) : Option SMCtrl :=
  (FluxTorqueCtrl.init pars).map fun ftc =>
    ⟨pars.T_s, pars.p, pars.sensorless, ftc, Observer.init pars⟩

/-- Initial orchestrator state: clock at zero (from `Ctrl.__init__`),
externally supplied initial speed-loop and PWM states, observer built
from the parameters. -/
def initCtrlState (ext : Externals) (pars : CtrlPars) : CtrlState ext :=
  ⟨0, ext.speedInit, ext.pwmInit, Observer.init pars⟩

/-- One tick of `SynchronousMotorFluxVectorCtrl.__call__`, lines 103-173, in
the sensored mode (the sensorless branch reads speed/angle from the external
sensorless estimator instead and is out of scope, spec section 4.3).  The
statements follow the source order: read feedback and the realized voltage,
wrap the electrical angle, rotate the measured current, read the flux
estimate, run the outer speed loop and reference shaping, run the regulator,
run the modulation stage, and only then update the observer, speed-loop and
PWM states and advance the clock.  Returns `(T_s, d_abc_ref)` and the new
state. -/
def ctrlTick (ext : Externals) (pars : CtrlPars) (ftc : FluxTorqueCtrl)
    (st : CtrlState ext) (fb : Feedback) :
    (ℝ × (ℝ × ℝ × ℝ)) × CtrlState ext :=
  let w_m_ref := pars.w_m_ref st.t
  let u_dc := fb.u_dc
  let u_s := ext.pwmRealized st.pwmSt
  let w_m := (pars.p : ℝ) * fb.w_M
  let theta_m := sensoredTheta pars.p fb.theta_M
  let i_s := Complex.exp (-(Complex.I * (theta_m : ℂ))) * ext.abc2complex fb.i_abc
  let psi_s := st.observer.psi_s
  let tau_M_ref := ext.speedOutput st.speedSt (w_m_ref / (pars.p : ℝ)) (w_m / (pars.p : ℝ))
  let refs := ext.ftRef tau_M_ref w_m u_dc
  let u_s_ref := (ftc.call refs.1 refs.2 psi_s i_s w_m).1
  let pwmOut := ext.pwmOutput st.pwmSt u_s_ref u_dc theta_m w_m
  let obs' := st.observer.update u_s i_s w_m
  let speedSt' := ext.speedUpdate st.speedSt refs.2
  let pwmSt' := ext.pwmUpdate st.pwmSt pwmOut.2
  ((pars.T_s, pwmOut.1), ⟨st.t + pars.T_s, speedSt', pwmSt', obs'⟩)

/-- The trajectory of the control loop over a list of feedback samples: the
list of `(output, post-tick state)` pairs produced by iterating `ctrlTick`
from the given state. -/
def ctrlRun (ext : Externals) (pars : CtrlPars) (ftc : FluxTorqueCtrl) :
    CtrlState ext → List Feedback →
      List (((ℝ × (ℝ × ℝ × ℝ))) × CtrlState ext)
  | _, [] => []
  | st, fb :: rest =>
    let step := ctrlTick ext pars ftc st fb
    step :: ctrlRun ext pars ftc step.2 rest

/-- A concrete PMSM parameter set (`psi_f > 0`) used to instantiate the
construction and determinism theorems on explicit inputs. -/
def parsA : CtrlPars :=
  ⟨fun _ => 0, false, 1, none, none, 1, 1, 3, 1, 1, 1, 0, 1, 2, 1, 1, 1, 1, 1, 0⟩

/-- The flux-and-torque controller that `FluxTorqueCtrl.init` yields on
`parsA`: there `G = (1-2)/(1*2) = -1/2`, `psi_s0 = psi_f = 1`,
`c_delta0 = 1.5*(1 - (-1/2)) = 2.25` and `k_tau = 3/2.25 = 4/3`. -/
def ftcA : FluxTorqueCtrl := ⟨1, 0, 1, 1, 4 / 3⟩

/-- The controller that `SMCtrl.init` yields on `parsA`. -/
def cA : SMCtrl := ⟨1, 1, false, ftcA, Observer.init parsA⟩

/-- A reluctance-machine parameter set: `psi_f = 0` with a positive minimum
flux operating point `psi_s_min = 1` and distinct inductances. -/
def parsS : CtrlPars :=
  ⟨fun _ => 0, false, 1, some 1, none, 1, 1, 1, 1, 1, 1, 1, 1, 2, 0, 1, 1, 1, 1, 0⟩

/-- A degenerate reluctance-machine parameter set: `psi_f = 0`, a positive
minimum flux operating point `psi_s_min = 1`, but equal inductances
`L_d = L_q = 1`, so `c_delta0 = 0` and line 201 divides by zero. -/
def parsDeg : CtrlPars :=
  ⟨fun _ => 0, false, 1, some 1, none, 1, 1, 1, 1, 1, 1, 1, 1, 1, 0, 1, 1, 1, 1, 0⟩

/-- A parameter set with a zero sampling period (`T_s = 0`) and otherwise
well-formed electrical parameters. -/
def parsT0 : CtrlPars :=
  ⟨fun _ => 0, false, 0, none, none, 1, 1, 1, 1, 1, 1, 0, 1, 2, 1, 1, 1, 1, 1, 0⟩

/-- The flux-and-torque controller that `FluxTorqueCtrl.init` yields on
`parsT0` (`c_delta0 = 2.25`, `k_tau = 1/2.25 = 4/9`). -/
def ftcT0 : FluxTorqueCtrl := ⟨0, 0, 1, 1, 4 / 9⟩

/-- A trivial instantiation of the external collaborators, with unit PWM and
speed-loop states and all maps constantly zero. -/
def ext0 : Externals :=
  ⟨Unit, Unit, (), fun _ => 0, fun _ _ _ _ _ => ((0, 0, 0), 0), fun _ _ => (),
    (), fun _ _ _ => 0, fun _ _ => (), fun _ _ _ => (0, 0), fun _ => 0⟩

/-- A concrete feedback sample. -/
def fb0 : Feedback := ⟨(0, 0, 0), 1, 0, 0⟩

/-- A concrete observer instance for the open-loop integration check:
`T_s = 250e-6`, `R_s = 0`, correction gain `g = 0`, initial flux
`0.545 + 0j`. -/
def obsC2 : Observer := ⟨250e-6, 0, 1, 1, 1, 0, 0.545⟩

/-- For a positive modulus, `np.mod` lands in `[0, y)`: lower bound. -/
theorem npMod_nonneg (x y : ℝ) (hy : 0 < y) : 0 ≤ npMod x y := by
  unfold npMod
  have h := Int.floor_le (x / y)
  have : y * (⌊x / y⌋ : ℝ) ≤ y * (x / y) := by
    exact mul_le_mul_of_nonneg_left h (le_of_lt hy)
  rw [mul_div_cancel₀ x (ne_of_gt hy)] at this
  linarith

/-- For a positive modulus, `np.mod` lands in `[0, y)`: upper bound. -/
theorem npMod_lt (x y : ℝ) (hy : 0 < y) : npMod x y < y := by
  unfold npMod
  have h := Int.lt_floor_add_one (x / y)
  have : y * (x / y) < y * ((⌊x / y⌋ : ℝ) + 1) := by
    exact mul_lt_mul_of_pos_left h hy
  rw [mul_div_cancel₀ x (ne_of_gt hy)] at this
  nlinarith

/-- C2: every call of `Observer.update` with realized voltage `u_s`, current
`i_s` and speed `w_m` sets the new flux estimate to the old one plus
`T_s*(u_s - R_s*i_s - j*w_m*psi_s + g*e)` with
`e = L_d*Re(i_s) + j*L_q*Im(i_s) + psi_f - psi_s`; and on the concrete
open-loop instance (`g = 0`, `R_s = 0`, voltage `1+0j`, speed `0`,
`T_s = 250e-6`, initial flux `0.545+0j`) one update yields `0.54525`. -/
theorem claim_C2_observer_update :
    (∀ (o : Observer) (u_s i_s : ℂ) (w_m : ℝ),
      (o.update u_s i_s w_m).psi_s =
        o.psi_s + (o.T_s : ℂ) *
          (u_s - (o.R_s : ℂ) * i_s - Complex.I * (w_m : ℂ) * o.psi_s +
            (o.g : ℂ) *
              ((o.L_d * i_s.re : ℝ) + Complex.I * ((o.L_q * i_s.im : ℝ) : ℂ) +
                (o.psi_f : ℂ) - o.psi_s))) ∧
    (∀ i_s : ℂ, ((obsC2.update 1 i_s 0).psi_s = (0.54525 : ℂ))) := by
  constructor
  · intro o u i w
    rfl
  · intro i
    simp [Observer.update, obsC2]
    norm_num

/-- C4: the torque estimate used by the regulator is
`1.5*p*Im(i_s*conj(psi_s))` — concretely `4.5` for flux `0.5+0j`, current
`0+2j` and `p = 3` — and the voltage reference returned by
`FluxTorqueCtrl.call` uses the corrected synchronous frequency
`w_m + k_tau*(tau_M_ref - tau_M)`. -/
theorem claim_C4_torque_estimate :
    torqueEstimate 3 (2 * Complex.I) (0.5 : ℂ) = 4.5 ∧
    (∀ (c : FluxTorqueCtrl) (psi_s_ref tau_M_ref : ℝ) (psi_s i_s : ℂ) (w_m : ℝ),
      (c.call psi_s_ref tau_M_ref psi_s i_s w_m).1 =
        (c.R_s : ℂ) * i_s +
          Complex.I *
            ((w_m + c.k_tau * (tau_M_ref - 1.5 * (c.p : ℝ) * (i_s * conj psi_s).im) : ℝ) : ℂ) *
            psi_s +
          ((c.alpha_psi * (psi_s_ref - Complex.abs psi_s) : ℝ) : ℂ) *
            Complex.exp (Complex.I * ((Complex.arg psi_s : ℝ) : ℂ))) := by
  constructor
  · simp [torqueEstimate]
    norm_num
  · intro c a b ψ i w
    rfl

/-- C9: the flux-and-torque regulator is stateless across ticks — the call
leaves the controller (all of its fields `T_s`, `R_s`, `p`, `alpha_psi`,
`k_tau`) unchanged, and its result is the function of the five arguments and
the stored constants given by `FluxTorqueCtrl.call`. -/
theorem claim_C9_regulator_stateless :
    ∀ (c : FluxTorqueCtrl) (psi_s_ref tau_M_ref : ℝ) (psi_s i_s : ℂ) (w_m : ℝ),
      (c.call psi_s_ref tau_M_ref psi_s i_s w_m).2 = c :=
  fun _ _ _ _ _ _ => rfl

/-- C10: in sensored mode the wrapped electrical rotor angle
`np.mod(p*position + pi, 2*pi) - pi` used for the current rotation and for
modulation always lies in `[-pi, pi)`. -/
theorem claim_C10_sensored_angle_in_range :
    ∀ (p : ℕ) (pos : ℝ),
      -Real.pi ≤ sensoredTheta p pos ∧ sensoredTheta p pos < Real.pi := by
  intro p pos
  have h2π : (0 : ℝ) < 2 * Real.pi := by positivity
  unfold sensoredTheta
  constructor
  · have h := npMod_nonneg ((p : ℝ) * pos + Real.pi) (2 * Real.pi) h2π
    linarith
  · have h := npMod_lt ((p : ℝ) * pos + Real.pi) (2 * Real.pi) h2π
    linarith

/-- C3: zero-error fixed point of the regulator — if the torque reference
equals the torque estimate `1.5*p*Im(i_s*conj(psi_s))` and the
flux-magnitude reference equals `|psi_s|`, the unlimited voltage reference
is exactly `R_s*i_s + j*w_m*psi_s`. -/
theorem claim_C3_zero_error_fixed_point
    (c : FluxTorqueCtrl) (psi_s_ref tau_M_ref : ℝ) (psi_s i_s : ℂ) (w_m : ℝ)
    (htau : tau_M_ref = 1.5 * (c.p : ℝ) * (i_s * conj psi_s).im)
    (hpsi : psi_s_ref = Complex.abs psi_s) :
    (c.call psi_s_ref tau_M_ref psi_s i_s w_m).1 =
      (c.R_s : ℂ) * i_s + Complex.I * (w_m : ℂ) * psi_s := by
  subst htau hpsi
  simp [FluxTorqueCtrl.call, torqueEstimate]

/-- Witness for C3 at `c = ⟨1, 2, 3, 4, 5⟩`, flux `1+0j`, current `0+1j`,
speed `7`: the matching torque reference is `4.5`, the matching flux
reference is `1`, and the output is `2j + 7j`. -/
theorem claim_C3_zero_error_fixed_point_witness :
    (FluxTorqueCtrl.call ⟨1, 2, 3, 4, 5⟩ 1 4.5 1 Complex.I 7).1 =
      ((2 : ℝ) : ℂ) * Complex.I + Complex.I * ((7 : ℝ) : ℂ) * 1 := by
  have h := claim_C3_zero_error_fixed_point ⟨1, 2, 3, 4, 5⟩ 1 4.5 1 Complex.I 7
    (by simp; norm_num) (by simp)
  exact h

/-- C1: whenever `FluxTorqueCtrl` construction succeeds, the stored torque
gain satisfies `k_tau = alpha_tau / c_delta0` with `c_delta0` given by the
magnet formula `1.5*p*(psi_f*psi_s0/L_d - saliency*psi_s0^2)` at
`psi_s0 = psi_f` when the magnet flux is positive, and by the
reluctance-only formula `1.5*p*saliency*psi_s0^2` at `psi_s0 = psi_s_min`
otherwise (`saliency = (L_d - L_q)/(L_d*L_q)`); and the per-tick call never
recomputes the gain. -/
theorem claim_C1_gain_derivation (pars : CtrlPars) (c : FluxTorqueCtrl)
    (h : FluxTorqueCtrl.init pars = some c) :
    (pars.psi_f > 0 →
      c.k_tau = pars.alpha_tau /
        (1.5 * (pars.p : ℝ) *
          (pars.psi_f * pars.psi_f / pars.L_d -
            (pars.L_d - pars.L_q) / (pars.L_d * pars.L_q) * pars.psi_f ^ 2))) ∧
    (¬ pars.psi_f > 0 → ∀ m, pars.psi_s_min = some m →
      c.k_tau = pars.alpha_tau /
        (1.5 * (pars.p : ℝ) * ((pars.L_d - pars.L_q) / (pars.L_d * pars.L_q)) *
          m ^ 2)) ∧
    (∀ (a b : ℝ) (ψ i : ℂ) (w : ℝ), ((c.call a b ψ i w).2).k_tau = c.k_tau) := by
  unfold FluxTorqueCtrl.init at h
  by_cases hL : pars.L_d * pars.L_q = 0
  · rw [if_pos hL] at h
    exact absurd h (by simp)
  · rw [if_neg hL] at h
    rcases hs : psiS0? pars with _ | ψ0
    · rw [hs] at h
      exact absurd h (by simp)
    · rw [hs, Option.some_bind] at h
      by_cases hc : cDelta0 pars ψ0 = 0
      · rw [if_pos hc] at h
        exact absurd h (by simp)
      · rw [if_neg hc] at h
        injection h with h'
        subst h'
        refine ⟨?_, ?_, fun _ _ _ _ _ => rfl⟩
        · intro hpf
          have hψ : ψ0 = pars.psi_f := by
            unfold psiS0? at hs
            rw [if_pos hpf] at hs
            injection hs with hh
            exact hh.symm
          show pars.alpha_tau / cDelta0 pars ψ0 = _
          rw [hψ]
          unfold cDelta0
          rw [if_pos hpf]
        · intro hpf m hm
          have hψ : ψ0 = m := by
            unfold psiS0? at hs
            rw [if_neg hpf, hm] at hs
            injection hs with hh
            exact hh.symm
          show pars.alpha_tau / cDelta0 pars ψ0 = _
          rw [hψ]
          unfold cDelta0
          rw [if_neg hpf]

/-- Witness for C1 on the concrete PMSM parameter set `parsA`
(`L_d = 1`, `L_q = 2`, `psi_f = 1`, `alpha_tau = 3`, `p = 1`):
construction yields `ftcA` and its gain matches the closed form. -/
theorem claim_C1_gain_derivation_witness :
    ftcA.k_tau = parsA.alpha_tau /
      (1.5 * (parsA.p : ℝ) *
        (parsA.psi_f * parsA.psi_f / parsA.L_d -
          (parsA.L_d - parsA.L_q) / (parsA.L_d * parsA.L_q) *
            parsA.psi_f ^ 2)) := by
  have hinit : FluxTorqueCtrl.init parsA = some ftcA := by
    simp only [FluxTorqueCtrl.init, psiS0?, cDelta0, parsA, ftcA]
    norm_num
  exact (claim_C1_gain_derivation parsA ftcA hinit).1 (by norm_num [parsA])

/-- Counterexample to C5 as stated: on `parsDeg` the magnet flux is zero and
a positive minimum flux operating point (`psi_s_min = 1`) is supplied, yet
construction fails, because `L_d = L_q` makes the saliency term and hence
`c_delta0` zero, and line 201 divides by zero. -/
theorem claim_C5_counterexample : FluxTorqueCtrl.init parsDeg = none := by
  simp only [FluxTorqueCtrl.init, psiS0?, cDelta0, parsDeg]
  norm_num

/-- C5 (amended): for a machine with non-positive magnet flux, construction
fails when no minimum flux operating point is supplied (the failure is at
construction; the per-tick call is total and never performs the
computation); when a positive minimum flux operating point is supplied,
construction succeeds with the reluctance-only formula
`c_delta0 = 1.5*p*((L_d - L_q)/(L_d*L_q))*psi_s_min^2` — provided the
inductances do not make that `c_delta0` zero (`L_d*L_q ≠ 0` and
`c_delta0 ≠ 0`), since line 195 or 201 otherwise divides by zero. -/
theorem claim_C5_reluctance_construction (pars : CtrlPars)
    (hf : ¬ pars.psi_f > 0) :
    (pars.psi_s_min = none → FluxTorqueCtrl.init pars = none) ∧
    (∀ m, pars.psi_s_min = some m → 0 < m → pars.L_d * pars.L_q ≠ 0 →
      1.5 * (pars.p : ℝ) * ((pars.L_d - pars.L_q) / (pars.L_d * pars.L_q)) *
          m ^ 2 ≠ 0 →
      FluxTorqueCtrl.init pars =
        some ⟨pars.T_s, pars.R_s, pars.p, pars.alpha_psi,
          pars.alpha_tau /
            (1.5 * (pars.p : ℝ) *
              ((pars.L_d - pars.L_q) / (pars.L_d * pars.L_q)) * m ^ 2)⟩) := by
  constructor
  · intro hmin
    unfold FluxTorqueCtrl.init
    have hs : psiS0? pars = none := by
      unfold psiS0?
      rw [if_neg hf]
      exact hmin
    rw [hs]
    simp
  · intro m hm _ hL hcd
    have hs : psiS0? pars = some m := by
      unfold psiS0?
      rw [if_neg hf]
      exact hm
    have hcm : cDelta0 pars m =
        1.5 * (pars.p : ℝ) * ((pars.L_d - pars.L_q) / (pars.L_d * pars.L_q)) *
          m ^ 2 := by
      unfold cDelta0
      rw [if_neg hf]
    unfold FluxTorqueCtrl.init
    rw [if_neg hL, hs, Option.some_bind, hcm, if_neg hcd]

/-- Witness for the amended C5 on `parsS` (`psi_f = 0`, `psi_s_min = 1`,
`L_d = 1`, `L_q = 2`): construction succeeds with the reluctance-only
gain. -/
theorem claim_C5_reluctance_construction_witness :
    FluxTorqueCtrl.init parsS =
      some ⟨parsS.T_s, parsS.R_s, parsS.p, parsS.alpha_psi,
        parsS.alpha_tau /
          (1.5 * (parsS.p : ℝ) *
            ((parsS.L_d - parsS.L_q) / (parsS.L_d * parsS.L_q)) * 1 ^ 2)⟩ :=
  (claim_C5_reluctance_construction parsS (by norm_num [parsS])).2 1
    rfl (by norm_num) (by norm_num [parsS]) (by norm_num [parsS])

/-- Counterexample to C6 as stated: `parsT0` has a zero sampling period, yet
construction of the controller succeeds — no configuration validation is
performed — and the per-tick call still produces an output (whose first
component is the stored sampling period `0`). -/
theorem claim_C6_counterexample :
    SMCtrl.init parsT0 = some ⟨0, 1, false, ftcT0, Observer.init parsT0⟩ ∧
    (ctrlTick ext0 parsT0 ftcT0 (initCtrlState ext0 parsT0) fb0).1.1 = 0 := by
  constructor
  · simp only [SMCtrl.init, FluxTorqueCtrl.init, psiS0?, cDelta0, parsT0, ftcT0]
    norm_num
  · rfl

/-- C6 (amended): construction performs no explicit validation of the
sampling period, bandwidths, resistance or pole-pair count, and does not
require `c_delta0 > 0`; it fails exactly when the gain derivation raises —
`L_d*L_q = 0` (division by zero in the saliency term), non-positive magnet
flux with no minimum flux operating point supplied (`psi_s0` is `None`), or
`c_delta0 = 0` (division by zero computing `k_tau`).  A negative `c_delta0`
is accepted. -/
theorem claim_C6_construction_failure_characterization (pars : CtrlPars) :
    SMCtrl.init pars = none ↔
      (pars.L_d * pars.L_q = 0 ∨
        (¬ pars.psi_f > 0 ∧ pars.psi_s_min = none) ∨
        ∃ m, psiS0? pars = some m ∧ cDelta0 pars m = 0) := by
  unfold SMCtrl.init
  rw [Option.map_eq_none']
  unfold FluxTorqueCtrl.init
  by_cases hL : pars.L_d * pars.L_q = 0
  · simp [hL]
  · rw [if_neg hL]
    rcases hs : psiS0? pars with _ | m
    · have hmin : ¬ pars.psi_f > 0 ∧ pars.psi_s_min = none := by
        unfold psiS0? at hs
        by_cases hpf : pars.psi_f > 0
        · rw [if_pos hpf] at hs
          exact absurd hs (by simp)
        · rw [if_neg hpf] at hs
          exact ⟨hpf, hs⟩
      simp [hmin, hL]
    · rw [Option.some_bind]
      by_cases hc : cDelta0 pars m = 0
      · rw [if_pos hc]
        simp only [eq_self_iff_true, true_iff]
        exact Or.inr (Or.inr ⟨m, rfl, hc⟩)
      · rw [if_neg hc]
        constructor
        · intro hcontra
          exact absurd hcontra (by simp)
        · rintro (hcontra | ⟨hpf, hmin⟩ | ⟨m', hm', hc'⟩)
          · exact absurd hcontra hL
          · have hnone : psiS0? pars = none := by
              unfold psiS0?
              rw [if_neg hpf]
              exact hmin
            rw [hnone] at hs
            exact absurd hs (by simp)
          · injection hm' with hmm
            rw [← hmm] at hc'
            exact absurd hc' hc

/-- C7: within a tick, the flux estimate consumed by the regulator is the
pre-tick observer state `st.observer.psi_s` (the value committed by the
previous tick's update, or the initial value), the duty-ratio command is a
function of that pre-tick estimate only, and the post-tick observer state is
exactly one application of `Observer.update` to the pre-tick state — i.e.
the observer mutation cannot influence the voltage reference or duty-ratio
command of the same tick. -/
theorem claim_C7_observer_ordering (ext : Externals) (pars : CtrlPars)
    (ftc : FluxTorqueCtrl) (st : CtrlState ext) (fb : Feedback) :
    (ctrlTick ext pars ftc st fb).2.observer =
      st.observer.update (ext.pwmRealized st.pwmSt)
        (Complex.exp (-(Complex.I * ((sensoredTheta pars.p fb.theta_M : ℝ) : ℂ))) *
          ext.abc2complex fb.i_abc)
        ((pars.p : ℝ) * fb.w_M) ∧
    (ctrlTick ext pars ftc st fb).1.2 =
      (ext.pwmOutput st.pwmSt
        ((ftc.call
            (ext.ftRef
              (ext.speedOutput st.speedSt (pars.w_m_ref st.t / (pars.p : ℝ))
                ((pars.p : ℝ) * fb.w_M / (pars.p : ℝ)))
              ((pars.p : ℝ) * fb.w_M) fb.u_dc).1
            (ext.ftRef
              (ext.speedOutput st.speedSt (pars.w_m_ref st.t / (pars.p : ℝ))
                ((pars.p : ℝ) * fb.w_M / (pars.p : ℝ)))
              ((pars.p : ℝ) * fb.w_M) fb.u_dc).2
            st.observer.psi_s
            (Complex.exp (-(Complex.I * ((sensoredTheta pars.p fb.theta_M : ℝ) : ℂ))) *
              ext.abc2complex fb.i_abc)
            ((pars.p : ℝ) * fb.w_M)).1)
        fb.u_dc (sensoredTheta pars.p fb.theta_M) ((pars.p : ℝ) * fb.w_M)).1 :=
  ⟨rfl, rfl⟩

/-- C8: determinism — two controllers constructed from identical parameters
and driven from the initial state by identical feedback sequences (for any
fixed instantiation of the external collaborators) produce identical
trajectories of outputs and states; the tick is a pure function with no
hidden randomness or wall-clock input. -/
theorem claim_C8_determinism (ext : Externals) (pars₁ pars₂ : CtrlPars)
    (fbs₁ fbs₂ : List Feedback) (c₁ c₂ : SMCtrl)
    (hp : pars₁ = pars₂) (hf : fbs₁ = fbs₂)
    (h₁ : SMCtrl.init pars₁ = some c₁) (h₂ : SMCtrl.init pars₂ = some c₂) :
    ctrlRun ext pars₁ c₁.flux_torque_ctrl (initCtrlState ext pars₁) fbs₁ =
      ctrlRun ext pars₂ c₂.flux_torque_ctrl (initCtrlState ext pars₂) fbs₂ := by
  subst hp
  subst hf
  rw [h₁] at h₂
  injection h₂ with h
  rw [h]

/-- Witness for C8: the concrete controller `cA` built from `parsA`, run on
the one-sample feedback list `[fb0]` with the trivial externals `ext0`. -/
theorem claim_C8_determinism_witness :
    ctrlRun ext0 parsA cA.flux_torque_ctrl (initCtrlState ext0 parsA) [fb0] =
      ctrlRun ext0 parsA cA.flux_torque_ctrl (initCtrlState ext0 parsA) [fb0] :=
  claim_C8_determinism ext0 parsA parsA [fb0] [fb0] cA cA rfl rfl
    (by simp only [SMCtrl.init, FluxTorqueCtrl.init, psiS0?, cDelta0, parsA,
          cA, ftcA, Observer.init]
        norm_num)
    (by simp only [SMCtrl.init, FluxTorqueCtrl.init, psiS0?, cDelta0, parsA,
          cA, ftcA, Observer.init]
        norm_num)
